import Mathlib

/-!
Verification of `miio/airpurifier_miot.py` (python-miio air purifier MIoT
client): a shallow embedding of the filter-type classifier with its
memoizing cache, the status-decoder accessors, and the fan/favorite level
setters, together with theorems settling the specification's claims.

Modelling conventions:
* Python `None` becomes `Option.none`; a raw status dict becomes the
  `RawData` structure holding the raw values the claims are about.
* Python exceptions become `Except String` results.
* The Python `re` patterns `^\d+:\d+:41:30$` and `^\d+:\d+:(30|0|00):31$`
  are embedded as executable matchers over `List Char`.  `\d` is modelled
  by `isDecimalDigit`, true exactly on the Unicode decimal-digit
  characters (general category Nd, Unicode 14.0 as shipped with CPython
  3.11), which is what a Python `str` pattern `\d` matches.  Python's `$`
  matches at the end of the string OR just before a single newline at the
  end of the string;
  the matchers reproduce that (`reMatchNl`).  The third pattern `.*` used
  with `re.match` always succeeds, so the final rule is a catch-all.
* A raw status dict built by `status()` has exactly the registered
  property names as keys, so registered fields are modelled as `RawData`
  fields, while a subscript of an unregistered key (`button_pressed`) is
  modelled as an explicit dict access (`dictGetItem`) that can raise
  `KeyError`.
* The class-attribute cache `_filter_type_cache` (a process-wide dict)
  becomes an explicit association list threaded through `getFilterType`;
  `getFilterType` also counts how many rule patterns the call evaluated,
  so a cache hit is observable as a count of zero.
-/

/-- The `FilterType` enum of the source. -/
inductive FilterType where
  | Regular
  | AntiBacterial
  | AntiFormaldehyde
  | Unknown
deriving DecidableEq, Repr

/-- The `OperationMode` enum of the source (`Auto=0, Silent=1, Favorite=2, Fan=3`). -/
inductive OperationMode where
  | Auto
  | Silent
  | Favorite
  | Fan
deriving DecidableEq, Repr

/-- The `LedBrightness` enum of the source (`Bright=0, Dim=1, Off=2`). -/
inductive LedBrightness where
  | Bright
  | Dim
  | Off
deriving DecidableEq, Repr

/-- Decode `OperationMode(v)`: the enum constructor call, which raises `ValueError`
on a value outside `{0,1,2,3}`. -/
def OperationMode.ofRaw (v : Int) : Except String OperationMode :=
  if v = 0 then .ok .Auto
  else if v = 1 then .ok .Silent
  else if v = 2 then .ok .Favorite
  else if v = 3 then .ok .Fan
  else .error (toString v ++ " is not a valid OperationMode")

/-- Decode `LedBrightness(v)` wrapped in the source's `try/except ValueError`
(`led_brightness` property): an unknown value decodes to `none` instead of
raising. -/
def LedBrightness.ofRawLenient (v : Int) : Option LedBrightness :=
  if v = 0 then some .Bright
  else if v = 1 then some .Dim
  else if v = 2 then some .Off
  else none

/-- Codepoint ranges (inclusive) of the Unicode decimal-digit characters,
general category Nd (Unicode 14.0, the table CPython 3.11 uses): the
character class a Python `str` pattern `\d` matches. -/
def ndRanges : List (Nat × Nat) :=
  [(0x0030, 0x0039), (0x0660, 0x0669), (0x06F0, 0x06F9), (0x07C0, 0x07C9),
   (0x0966, 0x096F), (0x09E6, 0x09EF), (0x0A66, 0x0A6F), (0x0AE6, 0x0AEF),
   (0x0B66, 0x0B6F), (0x0BE6, 0x0BEF), (0x0C66, 0x0C6F), (0x0CE6, 0x0CEF),
   (0x0D66, 0x0D6F), (0x0DE6, 0x0DEF), (0x0E50, 0x0E59), (0x0ED0, 0x0ED9),
   (0x0F20, 0x0F29), (0x1040, 0x1049), (0x1090, 0x1099), (0x17E0, 0x17E9),
   (0x1810, 0x1819), (0x1946, 0x194F), (0x19D0, 0x19D9), (0x1A80, 0x1A89),
   (0x1A90, 0x1A99), (0x1B50, 0x1B59), (0x1BB0, 0x1BB9), (0x1C40, 0x1C49),
   (0x1C50, 0x1C59), (0xA620, 0xA629), (0xA8D0, 0xA8D9), (0xA900, 0xA909),
   (0xA9D0, 0xA9D9), (0xA9F0, 0xA9F9), (0xAA50, 0xAA59), (0xABF0, 0xABF9),
   (0xFF10, 0xFF19), (0x104A0, 0x104A9), (0x10D30, 0x10D39), (0x11066, 0x1106F),
   (0x110F0, 0x110F9), (0x11136, 0x1113F), (0x111D0, 0x111D9), (0x112F0, 0x112F9),
   (0x11450, 0x11459), (0x114D0, 0x114D9), (0x11650, 0x11659), (0x116C0, 0x116C9),
   (0x11730, 0x11739), (0x118E0, 0x118E9), (0x11950, 0x11959), (0x11C50, 0x11C59),
   (0x11D50, 0x11D59), (0x11DA0, 0x11DA9), (0x16A60, 0x16A69), (0x16AC0, 0x16AC9),
   (0x16B50, 0x16B59), (0x1D7CE, 0x1D7FF), (0x1E140, 0x1E149), (0x1E2F0, 0x1E2F9),
   (0x1E950, 0x1E959), (0x1FBF0, 0x1FBF9)]

/-- Python `\d` on a `str` pattern: any Unicode decimal digit (Nd). -/
def isDecimalDigit (c : Char) : Bool :=
  ndRanges.any (fun r => r.1 ≤ c.toNat && c.toNat ≤ r.2)

/-- Matcher for the anchored pattern fragment `\d+:\d+` followed by the
literal `suffix`, matched against the whole input.  Because `suffix` starts
with a non-digit in every use, greedy digit runs (`takeWhile`) coincide
with the regex's backtracking search. -/
def matchCore (suffix : List Char) (cs : List Char) : Bool :=
  match cs.takeWhile isDecimalDigit, cs.dropWhile isDecimalDigit with
  | _ :: _, ':' :: r2 =>
    match r2.takeWhile isDecimalDigit, r2.dropWhile isDecimalDigit with
    | _ :: _, r3 => r3 == suffix
    | [], _ => false
  | _, _ => false

/-- Python `$` semantics for an anchored pattern: the core pattern matches
the whole string, or the string ends in one newline and the core pattern
matches everything before it. -/
def reMatchNl (core : List Char → Bool) (cs : List Char) : Bool :=
  core cs || ((cs.getLast? == some '\n') && core cs.dropLast)

/-- Matcher for `re.match` of `^\d+:\d+:41:30$` (first entry of `FILTER_TYPE_RE`). -/
def matchAntiBacterial (cs : List Char) : Bool :=
  reMatchNl (matchCore ":41:30".toList) cs

/-- Matcher for `re.match` of `^\d+:\d+:(30|0|00):31$` (second entry of
`FILTER_TYPE_RE`). -/
def matchAntiFormaldehyde (cs : List Char) : Bool :=
  reMatchNl
    (fun l =>
      matchCore ":30:31".toList l || matchCore ":0:31".toList l ||
        matchCore ":00:31".toList l)
    cs

/-- One pass over the ordered rule list `FILTER_TYPE_RE` (first match wins;
the trailing `.*` rule always matches), returning the matched category and
how many rule patterns were evaluated before the loop broke. -/
def rulesEval (pid : String) : FilterType × Nat :=
  if matchAntiBacterial pid.toList then (.AntiBacterial, 1)
  else if matchAntiFormaldehyde pid.toList then (.AntiFormaldehyde, 2)
  else (.Regular, 3)

/-- The category the ordered rule list assigns to a product id. -/
def classifyByRules (pid : String) : FilterType :=
  (rulesEval pid).1

/-- The process-wide `_filter_type_cache` class attribute, as an explicit
association list (most recent insertion first, like a dict overwrite). -/
abbrev Cache := List (String × FilterType)

/-- Lookup `dict.get(key, None)` on an association list. -/
def assocGet {β : Type} : List (String × β) → String → Option β
  | [], _ => none
  | (k, v) :: rest, key => if key = k then some v else assocGet rest key

/-- Embedding of `AirPurifierMiotStatus._get_filter_type`: look the product id up in the
cache; on a miss, evaluate the rule list, store the result under the exact
product-id string, and return it.  The `Nat` component counts rule-pattern
evaluations (0 on a cache hit). -/
def getFilterType (c : Cache) (pid : String) : FilterType × Cache × Nat :=
  match assocGet c pid with
  | some ft => (ft, c, 0)
  | none =>
    let r := rulesEval pid
    (r.1, (pid, r.1) :: c, r.2)

/-- The raw status mapping (`data` dict) restricted to the fields the
claims are about; `Option` marks fields whose raw value may be `None`.
Every field here is a registered property name, so a full batch read
populates all of them; `button_pressed` is deliberately not a field,
because that name is not registered and is therefore never a key of a
`status()`-built dict (see `button_pressed_access`). -/
structure RawData where
  power : Bool
  mode : Int
  led_brightness : Option Int
  filter_rfid_tag : Option String
  filter_rfid_product_id : Option String
deriving DecidableEq, Repr

/-- Structure `AirPurifierMiotStatus`: a container wrapping the raw data dict. -/
structure AirPurifierMiotStatus where
  data : RawData
deriving DecidableEq, Repr

/-- Constructor `AirPurifierMiotStatus.__init__`: it only stores the raw mapping and
cannot fail; the `Except` result type makes the (absent) possibility of a
construction-time failure expressible. -/
def mkStatus (d : RawData) : Except String AirPurifierMiotStatus :=
  .ok ⟨d⟩

/-- Property `is_on`: the raw `power` value returned directly. -/
def AirPurifierMiotStatus.is_on (s : AirPurifierMiotStatus) : Bool :=
  s.data.power

/-- Property `power`: `"on" if self.is_on else "off"`. -/
def AirPurifierMiotStatus.power (s : AirPurifierMiotStatus) : String :=
  if s.is_on then "on" else "off"

/-- Property `mode`: `OperationMode(self.data["mode"])`, which raises on a
value outside the enum. -/
def AirPurifierMiotStatus.mode (s : AirPurifierMiotStatus) :
    Except String OperationMode :=
  OperationMode.ofRaw s.data.mode

/-- Property `led_brightness`: `None` stays `None`; otherwise the lenient
enum decode whose `ValueError` is swallowed to `None`. -/
def AirPurifierMiotStatus.led_brightness (s : AirPurifierMiotStatus) :
    Option LedBrightness :=
  match s.data.led_brightness with
  | some v => LedBrightness.ofRawLenient v
  | none => none

/-- Property `filter_rfid_tag`: raw value passed through. -/
def AirPurifierMiotStatus.filter_rfid_tag (s : AirPurifierMiotStatus) :
    Option String :=
  s.data.filter_rfid_tag

/-- Property `filter_rfid_product_id`: raw value passed through. -/
def AirPurifierMiotStatus.filter_rfid_product_id (s : AirPurifierMiotStatus) :
    Option String :=
  s.data.filter_rfid_product_id

/-- Property `filter_type`, with the cache state made explicit: absent tag
gives no type; the all-zero tag gives `Unknown`; a tag with no product id
gives `Regular`; otherwise `_get_filter_type` on the product id. -/
def AirPurifierMiotStatus.filter_type (s : AirPurifierMiotStatus)
    (c : Cache) : Option FilterType × Cache :=
  match s.filter_rfid_tag with
  | none => (none, c)
  | some tag =>
    if tag = "0:0:0:0:0:0:0" then (some .Unknown, c)
    else
      match s.filter_rfid_product_id with
      | none => (some .Regular, c)
      | some pid =>
        let r := getFilterType c pid
        (some r.1, r.2.1)

/-- The mutable state visible to a status accessor call: the snapshot it is
invoked on and the process-wide classifier cache. -/
structure ProcState where
  snap : AirPurifierMiotStatus
  cache : Cache
deriving DecidableEq, Repr

/-- The `filter_type` accessor as a transition on the full accessor-visible
state: it reads `snap` (never assigning to it) and may update the cache. -/
def filterTypeProc (st : ProcState) : Option FilterType × ProcState :=
  let r := st.snap.filter_type st.cache
  (r.1, ⟨st.snap, r.2⟩)

/-- A protocol coordinate `{siid, piid}` (one MIoT property address). -/
structure PropertyAddress where
  siid : Nat
  piid : Nat
deriving DecidableEq, Repr

/-- The address table passed to `MiotDevice.__init__` in
`AirPurifierMiot.__init__`: semantic name to protocol coordinate. -/
def addressTable : List (String × PropertyAddress) :=
  [("power", ⟨2, 2⟩), ("fan_level", ⟨2, 4⟩), ("mode", ⟨2, 5⟩),
   ("humidity", ⟨3, 7⟩), ("temperature", ⟨3, 8⟩), ("aqi", ⟨3, 6⟩),
   ("filter_life_remaining", ⟨4, 3⟩), ("filter_hours_used", ⟨4, 5⟩),
   ("buzzer", ⟨5, 1⟩),
   ("led_brightness", ⟨6, 1⟩), ("led", ⟨6, 6⟩),
   ("child_lock", ⟨7, 1⟩),
   ("favorite_level", ⟨10, 10⟩), ("motor_speed", ⟨10, 8⟩),
   ("use_time", ⟨12, 1⟩),
   ("purify_volume", ⟨13, 1⟩), ("average_aqi", ⟨13, 2⟩),
   ("filter_rfid_tag", ⟨14, 1⟩), ("filter_rfid_product_id", ⟨14, 3⟩),
   ("app_extra", ⟨15, 1⟩)]

/-- One set call issued to the Transport. -/
structure SetCall where
  addr : PropertyAddress
  value : Int
deriving DecidableEq, Repr

/-- Modelled from the spec: `MiotDevice.set_property` (its code is not in
`src/`; only its callers are).  Per spec sections 4.4 and 6 it resolves the
semantic name through the address table and issues exactly one transport
set call for that address, failing with `UnknownPropertyError` when the
name is not registered.  The result is the list of transport set calls
issued together with an optional error. -/
def set_property (name : String) (v : Int) : List SetCall × Option String :=
  match assocGet addressTable name with
  | some a => ([⟨a, v⟩], none)
  | none => ([], some "UnknownPropertyError")

/-- Setter `AirPurifierMiot.set_fan_level`: raises before any transport call when
the level is outside `[1, 3]`, else sets `fan_level`. -/
def set_fan_level (level : Int) : List SetCall × Option String :=
  if level < 1 ∨ level > 3 then
    ([], some ("Invalid fan level: " ++ toString level))
  else set_property "fan_level" level

/-- Setter `AirPurifierMiot.set_favorite_level`: raises before any transport call
when the level is outside `[0, 14]`, else sets `favorite_level`. -/
def set_favorite_level (level : Int) : List SetCall × Option String :=
  if level < 0 ∨ level > 14 then
    ([], some ("Invalid favorite level: " ++ toString level))
  else set_property "favorite_level" level

/-- Names registered in the address table.  `status()` builds its raw
dict as `{prop["did"]: prop["value"]}` over the batch read of the
registered addresses, so exactly these names are its keys. -/
def registeredNames : List String := addressTable.map Prod.fst

/-- Embedding of a Python dict subscript `data[key]`: unlike `dict.get`,
a missing key raises `KeyError`. -/
def dictGetItem {β : Type} (data : List (String × β)) (key : String) :
    Except String β :=
  match assocGet data key with
  | some v => .ok v
  | none => .error ("KeyError: " ++ key)

/-- Property `button_pressed` (`return self.data["button_pressed"]`),
read against the raw dict itself: a plain subscript, which raises
`KeyError` when the key is absent.  It is modelled at the dict level
because `"button_pressed"` is not a registered name, so the key is never
present in a `status()`-built dict. -/
def button_pressed_access {β : Type} (data : List (String × β)) :
    Except String β :=
  dictGetItem data "button_pressed"

/-- A nonempty list of Unicode decimal-digit characters: what one `\d+`
group of the source's patterns consumes. -/
def DigitRun (l : List Char) : Prop := l ≠ [] ∧ ∀ c ∈ l, isDecimalDigit c = true

/-- Statement of the spec's shape `"<digits>:<digits>" ++ suffix`: the
whole input splits into two nonempty digit runs separated by a colon,
followed by the literal suffix.  This is the specification-side reading of
one rule pattern, to be compared with the source-side matcher. -/
def ShapeCore (suffix cs : List Char) : Prop :=
  ∃ d1 d2 : List Char, DigitRun d1 ∧ DigitRun d2 ∧ cs = d1 ++ ':' :: (d2 ++ suffix)

/-- Literal tail of the AntiBacterial rule pattern. -/
def abSuffix : List Char := ":41:30".toList

/-- Literal tail of the AntiFormaldehyde rule pattern, `30` alternative. -/
def afSuffix30 : List Char := ":30:31".toList

/-- Literal tail of the AntiFormaldehyde rule pattern, `0` alternative. -/
def afSuffix0 : List Char := ":0:31".toList

/-- Literal tail of the AntiFormaldehyde rule pattern, `00` alternative. -/
def afSuffix00 : List Char := ":00:31".toList

/-- Spec-side shape `"<digits>:<digits>:41:30"`. -/
def ShapeAB (cs : List Char) : Prop := ShapeCore abSuffix cs

/-- Spec-side shapes `"<digits>:<digits>:30:31"`, `":0:31"`, `":00:31"`. -/
def ShapeAF (cs : List Char) : Prop :=
  ShapeCore afSuffix30 cs ∨ ShapeCore afSuffix0 cs ∨ ShapeCore afSuffix00 cs

/-- Shape accepted by the AntiBacterial rule under Python `$` semantics:
the strict shape, possibly followed by one trailing newline. -/
def ShapeABNl (cs : List Char) : Prop :=
  ShapeAB cs ∨ (cs.getLast? = some '\n' ∧ ShapeAB cs.dropLast)

/-- Shape accepted by the AntiFormaldehyde rule under Python `$` semantics:
the strict shapes, possibly followed by one trailing newline. -/
def ShapeAFNl (cs : List Char) : Prop :=
  ShapeAF cs ∨ (cs.getLast? = some '\n' ∧ ShapeAF cs.dropLast)

lemma tw_digits_append (d rest : List Char)
    (hd : ∀ c ∈ d, isDecimalDigit c = true)
    (hr : ∀ c t, rest = c :: t → isDecimalDigit c = false) :
    (d ++ rest).takeWhile isDecimalDigit = d ∧
    (d ++ rest).dropWhile isDecimalDigit = rest := by
  induction d with
  | nil =>
    simp only [List.nil_append]
    cases rest with
    | nil => simp
    | cons c t =>
      simp [List.takeWhile_cons, List.dropWhile_cons, hr c t rfl]
  | cons a d ih =>
    have ha : isDecimalDigit a = true := hd a (by simp)
    have ih' := ih (fun c hc => hd c (by simp [hc]))
    simp [List.takeWhile_cons, List.dropWhile_cons, ha, ih'.1, ih'.2]

lemma matchCore_iff (suffix cs : List Char)
    (hsuf : ∀ c t, suffix = c :: t → isDecimalDigit c = false) :
    matchCore suffix cs = true ↔ ShapeCore suffix cs := by
  constructor
  · intro h
    unfold matchCore at h
    split at h
    · rename_i a d1t r2 heq1 heq2
      split at h
      · rename_i b d2t heq3
        have hr2 : r2.dropWhile isDecimalDigit = suffix := by
          exact eq_of_beq h
        refine ⟨a :: d1t, b :: d2t, ⟨by simp, ?_⟩, ⟨by simp, ?_⟩, ?_⟩
        · intro c hc
          exact List.mem_takeWhile_imp (heq1 ▸ hc)
        · intro c hc
          exact List.mem_takeWhile_imp (heq3 ▸ hc)
        · calc cs = cs.takeWhile isDecimalDigit ++ cs.dropWhile isDecimalDigit :=
                (List.takeWhile_append_dropWhile isDecimalDigit cs).symm
          _ = (a :: d1t) ++ ':' :: r2 := by rw [heq1, heq2]
          _ = (a :: d1t) ++ ':' ::
                (r2.takeWhile isDecimalDigit ++ r2.dropWhile isDecimalDigit) := by
                rw [List.takeWhile_append_dropWhile isDecimalDigit r2]
          _ = (a :: d1t) ++ ':' :: ((b :: d2t) ++ suffix) := by rw [heq3, hr2]
      · simp at h
    · simp at h
  · rintro ⟨d1, d2, ⟨h1ne, h1d⟩, ⟨h2ne, h2d⟩, rfl⟩
    have outer := tw_digits_append d1 (':' :: (d2 ++ suffix)) h1d
      (by intro c t hct; injection hct with hc _; subst hc; decide)
    have inner := tw_digits_append d2 suffix h2d hsuf
    obtain ⟨a, d1t, rfl⟩ := List.exists_cons_of_ne_nil h1ne
    obtain ⟨b, d2t, rfl⟩ := List.exists_cons_of_ne_nil h2ne
    unfold matchCore
    rw [outer.1, outer.2]
    simp only [inner.1, inner.2]
    simp

lemma reMatchNl_iff (core : List Char → Bool) (P : List Char → Prop)
    (hc : ∀ l, core l = true ↔ P l) (cs : List Char) :
    reMatchNl core cs = true ↔
      P cs ∨ (cs.getLast? = some '\n' ∧ P cs.dropLast) := by
  unfold reMatchNl
  simp only [Bool.or_eq_true, Bool.and_eq_true, beq_iff_eq, hc]

lemma matchAntiBacterial_iff (cs : List Char) :
    matchAntiBacterial cs = true ↔ ShapeABNl cs := by
  unfold matchAntiBacterial
  exact reMatchNl_iff _ ShapeAB
    (fun l => matchCore_iff abSuffix l
      (by intro c t h; injection h with hc _; subst hc; decide)) cs

lemma matchAntiFormaldehyde_iff (cs : List Char) :
    matchAntiFormaldehyde cs = true ↔ ShapeAFNl cs := by
  unfold matchAntiFormaldehyde
  refine reMatchNl_iff _ ShapeAF (fun l => ?_) cs
  have h30 := matchCore_iff afSuffix30 l
    (by intro c t h; injection h with hc _; subst hc; decide)
  have h0 := matchCore_iff afSuffix0 l
    (by intro c t h; injection h with hc _; subst hc; decide)
  have h00 := matchCore_iff afSuffix00 l
    (by intro c t h; injection h with hc _; subst hc; decide)
  unfold ShapeAF
  constructor
  · intro h
    simp only [Bool.or_eq_true] at h
    rcases h with (h | h) | h
    · exact Or.inl (h30.mp h)
    · exact Or.inr (Or.inl (h0.mp h))
    · exact Or.inr (Or.inr (h00.mp h))
  · intro h
    simp only [Bool.or_eq_true]
    rcases h with h | h | h
    · exact Or.inl (Or.inl (h30.mpr h))
    · exact Or.inl (Or.inr (h0.mpr h))
    · exact Or.inr (h00.mpr h)

lemma ShapeCore_getLast (suffix cs : List Char) (h : ShapeCore suffix cs)
    (hne : suffix ≠ []) : cs.getLast? = suffix.getLast? := by
  obtain ⟨d1, d2, _, _, rfl⟩ := h
  rw [show d1 ++ ':' :: (d2 ++ suffix) = (d1 ++ ':' :: d2) ++ suffix by
    rw [List.append_assoc, List.cons_append]]
  exact List.getLast?_append_of_ne_nil _ hne

lemma ShapeAB_getLast (cs : List Char) (h : ShapeAB cs) :
    cs.getLast? = some '0' :=
  (ShapeCore_getLast abSuffix cs h (by decide)).trans (by decide)

lemma ShapeAF_getLast (cs : List Char) (h : ShapeAF cs) :
    cs.getLast? = some '1' := by
  rcases h with h | h | h
  · exact (ShapeCore_getLast afSuffix30 cs h (by decide)).trans (by decide)
  · exact (ShapeCore_getLast afSuffix0 cs h (by decide)).trans (by decide)
  · exact (ShapeCore_getLast afSuffix00 cs h (by decide)).trans (by decide)

lemma ShapeAFNl_not_ABNl (cs : List Char) (h : ShapeAFNl cs) :
    ¬ ShapeABNl cs := by
  rintro (hab | ⟨hnl, hab⟩) <;> rcases h with haf | ⟨hnl2, haf⟩
  · have h1 := ShapeAB_getLast cs hab
    have h2 := ShapeAF_getLast cs haf
    rw [h1] at h2
    exact absurd h2 (by decide)
  · have h1 := ShapeAB_getLast cs hab
    rw [h1] at hnl2
    exact absurd hnl2 (by decide)
  · have h2 := ShapeAF_getLast cs haf
    rw [h2] at hnl
    exact absurd hnl (by decide)
  · have h1 := ShapeAB_getLast cs.dropLast hab
    have h2 := ShapeAF_getLast cs.dropLast haf
    rw [h1] at h2
    exact absurd h2 (by decide)

lemma assocGet_eq_none_of_not_mem {β : Type} (data : List (String × β))
    (k : String) (h : k ∉ data.map Prod.fst) : assocGet data k = none := by
  induction data with
  | nil => rfl
  | cons a rest ih =>
    simp only [List.map_cons, List.mem_cons] at h
    push_neg at h
    cases a with
    | mk k2 v =>
      simp only [assocGet, if_neg h.1]
      exact ih h.2

/-- Sanity check that the matcher keeps the source's Unicode behaviour: a
product id written with Arabic-Indic digits (each of category Nd, matched
by `\d`) is classified AntiBacterial, as the Python code classifies it. -/
lemma classifyByRules_unicode_nd :
    classifyByRules "١:٢:41:30" = FilterType.AntiBacterial := by decide

/-- C1, counterexample: the string `"1:2:41:30\n"` is not of the strict
shape `"<digits>:<digits>:41:30"` nor of any AntiFormaldehyde shape, so
the claim as stated demands `Regular`; yet the classifier returns
`AntiBacterial`, because Python's `$` also matches just before a trailing
newline. -/
theorem C1_counterexample :
    classifyByRules "1:2:41:30\n" = FilterType.AntiBacterial ∧
    ¬ ShapeAB ("1:2:41:30\n").toList ∧ ¬ ShapeAF ("1:2:41:30\n").toList := by
  refine ⟨by decide, ?_, ?_⟩
  · intro h
    have h1 := ShapeAB_getLast _ h
    have h2 : ("1:2:41:30\n").toList.getLast? = some '\n' := by decide
    rw [h1] at h2
    exact absurd h2 (by decide)
  · intro h
    have h1 := ShapeAF_getLast _ h
    have h2 : ("1:2:41:30\n").toList.getLast? = some '\n' := by decide
    rw [h1] at h2
    exact absurd h2 (by decide)

/-- C1 (amended): the classifier returns AntiBacterial exactly on strings
of the shape `"<digits>:<digits>:41:30"` — where each `<digits>` is a
nonempty run of Unicode decimal-digit characters, the class Python's
`\d` matches — also when the shape is followed by one trailing newline
(Python `$` semantics) — AntiFormaldehyde exactly on the shapes
`"<digits>:<digits>:30:31"`, `":0:31"`, `":00:31"` (again with an
optional trailing newline), and Regular for every other string (the
final catch-all rule matches any input). -/
theorem C1_classifier_shapes : ∀ s : String,
    (classifyByRules s = FilterType.AntiBacterial ↔ ShapeABNl s.toList) ∧
    (classifyByRules s = FilterType.AntiFormaldehyde ↔ ShapeAFNl s.toList) ∧
    (classifyByRules s = FilterType.Regular ↔
      ¬ ShapeABNl s.toList ∧ ¬ ShapeAFNl s.toList) := by
  intro s
  have hab := matchAntiBacterial_iff s.toList
  have haf := matchAntiFormaldehyde_iff s.toList
  by_cases h1 : matchAntiBacterial s.toList = true
  · have hcl : classifyByRules s = FilterType.AntiBacterial := by
      unfold classifyByRules rulesEval
      rw [if_pos h1]
    refine ⟨⟨fun _ => hab.mp h1, fun _ => hcl⟩, ?_, ?_⟩
    · constructor
      · intro he
        rw [hcl] at he
        exact absurd he (by decide)
      · intro haf2
        exact absurd (hab.mp h1) (ShapeAFNl_not_ABNl _ haf2)
    · constructor
      · intro he
        rw [hcl] at he
        exact absurd he (by decide)
      · intro hno
        exact absurd (hab.mp h1) hno.1
  · by_cases h2 : matchAntiFormaldehyde s.toList = true
    · have hcl : classifyByRules s = FilterType.AntiFormaldehyde := by
        unfold classifyByRules rulesEval
        rw [if_neg h1, if_pos h2]
      refine ⟨?_, ⟨fun _ => haf.mp h2, fun _ => hcl⟩, ?_⟩
      · constructor
        · intro he
          rw [hcl] at he
          exact absurd he (by decide)
        · intro hab2
          exact absurd (hab.mpr hab2) h1
      · constructor
        · intro he
          rw [hcl] at he
          exact absurd he (by decide)
        · intro hno
          exact absurd (haf.mp h2) hno.2
    · have hcl : classifyByRules s = FilterType.Regular := by
        unfold classifyByRules rulesEval
        rw [if_neg h1, if_neg h2]
      refine ⟨?_, ?_, ⟨fun _ => ⟨fun hab2 => h1 (hab.mpr hab2),
        fun haf2 => h2 (haf.mpr haf2)⟩, fun _ => hcl⟩⟩
      · constructor
        · intro he
          rw [hcl] at he
          exact absurd he (by decide)
        · intro hab2
          exact absurd (hab.mpr hab2) h1
      · constructor
        · intro he
          rw [hcl] at he
          exact absurd he (by decide)
        · intro haf2
          exact absurd (haf.mpr haf2) h2

/-- C2: the `filter_type` accessor evaluates its cases in order: absent
tag gives an absent result; the all-zero tag gives Unknown; a present tag
with an absent product id gives Regular; otherwise the result is the
(memoizing) classifier applied to the product id. -/
theorem C2_filter_type_cases : ∀ (d : RawData) (c : Cache),
    (d.filter_rfid_tag = none →
      (AirPurifierMiotStatus.filter_type ⟨d⟩ c).1 = none) ∧
    (d.filter_rfid_tag = some "0:0:0:0:0:0:0" →
      (AirPurifierMiotStatus.filter_type ⟨d⟩ c).1 = some FilterType.Unknown) ∧
    (∀ t, d.filter_rfid_tag = some t → t ≠ "0:0:0:0:0:0:0" →
      d.filter_rfid_product_id = none →
      (AirPurifierMiotStatus.filter_type ⟨d⟩ c).1 = some FilterType.Regular) ∧
    (∀ t p, d.filter_rfid_tag = some t → t ≠ "0:0:0:0:0:0:0" →
      d.filter_rfid_product_id = some p →
      (AirPurifierMiotStatus.filter_type ⟨d⟩ c).1 =
        some (getFilterType c p).1) := by
  intro d c
  refine ⟨?_, ?_, ?_, ?_⟩
  · intro h
    simp [AirPurifierMiotStatus.filter_type,
      AirPurifierMiotStatus.filter_rfid_tag, h]
  · intro h
    simp [AirPurifierMiotStatus.filter_type,
      AirPurifierMiotStatus.filter_rfid_tag, h]
  · intro t ht hne hp
    simp [AirPurifierMiotStatus.filter_type,
      AirPurifierMiotStatus.filter_rfid_tag,
      AirPurifierMiotStatus.filter_rfid_product_id, ht, hne, hp]
  · intro t p ht hne hp
    simp [AirPurifierMiotStatus.filter_type,
      AirPurifierMiotStatus.filter_rfid_tag,
      AirPurifierMiotStatus.filter_rfid_product_id, ht, hne, hp]

/-- Witness for C2: the four cases evaluated on concrete raw data with an
empty cache. -/
theorem C2_witness :
    (AirPurifierMiotStatus.filter_type
      ⟨⟨true, 0, none, none, none⟩⟩ []).1 = none ∧
    (AirPurifierMiotStatus.filter_type
      ⟨⟨true, 0, none, some "0:0:0:0:0:0:0", none⟩⟩ []).1 =
        some FilterType.Unknown ∧
    (AirPurifierMiotStatus.filter_type
      ⟨⟨true, 0, none, some "1:2:3", none⟩⟩ []).1 =
        some FilterType.Regular ∧
    (AirPurifierMiotStatus.filter_type
      ⟨⟨true, 0, none, some "1:2:3", some "1:2:41:30"⟩⟩ []).1 =
        some (getFilterType [] "1:2:41:30").1 :=
  ⟨(C2_filter_type_cases _ []).1 rfl,
   (C2_filter_type_cases _ []).2.1 rfl,
   (C2_filter_type_cases _ []).2.2.1 "1:2:3" rfl (by decide) rfl,
   (C2_filter_type_cases _ []).2.2.2 "1:2:3" "1:2:41:30" rfl (by decide) rfl⟩

/-- C3: decoding the `mode` field yields Auto, Silent, Favorite, Fan for
raw values 0, 1, 2, 3, and yields a decode error (never a silent default)
for every raw value outside that set. -/
theorem C3_mode_decode : ∀ d : RawData,
    (d.mode = 0 →
      AirPurifierMiotStatus.mode ⟨d⟩ = Except.ok OperationMode.Auto) ∧
    (d.mode = 1 →
      AirPurifierMiotStatus.mode ⟨d⟩ = Except.ok OperationMode.Silent) ∧
    (d.mode = 2 →
      AirPurifierMiotStatus.mode ⟨d⟩ = Except.ok OperationMode.Favorite) ∧
    (d.mode = 3 →
      AirPurifierMiotStatus.mode ⟨d⟩ = Except.ok OperationMode.Fan) ∧
    (d.mode ≠ 0 → d.mode ≠ 1 → d.mode ≠ 2 → d.mode ≠ 3 →
      ∃ e, AirPurifierMiotStatus.mode ⟨d⟩ = Except.error e) := by
  intro d
  refine ⟨?_, ?_, ?_, ?_, ?_⟩ <;>
    simp only [AirPurifierMiotStatus.mode, OperationMode.ofRaw]
  · intro h
    rw [if_pos h]
  · intro h
    rw [if_neg (by omega), if_pos h]
  · intro h
    rw [if_neg (by omega), if_neg (by omega), if_pos h]
  · intro h
    rw [if_neg (by omega), if_neg (by omega), if_neg (by omega), if_pos h]
  · intro h0 h1 h2 h3
    rw [if_neg h0, if_neg h1, if_neg h2, if_neg h3]
    exact ⟨_, rfl⟩

/-- Witness for C3: the five cases on concrete raw data, including the
out-of-range value 4. -/
theorem C3_witness :
    AirPurifierMiotStatus.mode ⟨⟨true, 0, none, none, none⟩⟩ =
      Except.ok OperationMode.Auto ∧
    AirPurifierMiotStatus.mode ⟨⟨true, 1, none, none, none⟩⟩ =
      Except.ok OperationMode.Silent ∧
    AirPurifierMiotStatus.mode ⟨⟨true, 2, none, none, none⟩⟩ =
      Except.ok OperationMode.Favorite ∧
    AirPurifierMiotStatus.mode ⟨⟨true, 3, none, none, none⟩⟩ =
      Except.ok OperationMode.Fan ∧
    (∃ e, AirPurifierMiotStatus.mode ⟨⟨true, 4, none, none, none⟩⟩ =
      Except.error e) :=
  ⟨(C3_mode_decode ⟨true, 0, none, none, none⟩).1 rfl,
   (C3_mode_decode ⟨true, 1, none, none, none⟩).2.1 rfl,
   (C3_mode_decode ⟨true, 2, none, none, none⟩).2.2.1 rfl,
   (C3_mode_decode ⟨true, 3, none, none, none⟩).2.2.2.1 rfl,
   (C3_mode_decode ⟨true, 4, none, none, none⟩).2.2.2.2
     (by decide) (by decide) (by decide) (by decide)⟩

/-- C4: decoding `led_brightness` never raises (the accessor is total):
raw `None` gives absent, raw 0, 1, 2 give Bright, Dim, Off, and any other
raw value gives absent with the failure swallowed. -/
theorem C4_led_brightness_decode : ∀ d : RawData,
    (d.led_brightness = none →
      AirPurifierMiotStatus.led_brightness ⟨d⟩ = none) ∧
    (d.led_brightness = some 0 →
      AirPurifierMiotStatus.led_brightness ⟨d⟩ = some LedBrightness.Bright) ∧
    (d.led_brightness = some 1 →
      AirPurifierMiotStatus.led_brightness ⟨d⟩ = some LedBrightness.Dim) ∧
    (d.led_brightness = some 2 →
      AirPurifierMiotStatus.led_brightness ⟨d⟩ = some LedBrightness.Off) ∧
    (∀ v, d.led_brightness = some v → v ≠ 0 → v ≠ 1 → v ≠ 2 →
      AirPurifierMiotStatus.led_brightness ⟨d⟩ = none) := by
  intro d
  refine ⟨?_, ?_, ?_, ?_, ?_⟩
  · intro h
    simp [AirPurifierMiotStatus.led_brightness, h]
  · intro h
    simp [AirPurifierMiotStatus.led_brightness, h, LedBrightness.ofRawLenient]
  · intro h
    simp [AirPurifierMiotStatus.led_brightness, h, LedBrightness.ofRawLenient]
  · intro h
    simp [AirPurifierMiotStatus.led_brightness, h, LedBrightness.ofRawLenient]
  · intro v hv h0 h1 h2
    simp [AirPurifierMiotStatus.led_brightness, hv,
      LedBrightness.ofRawLenient, h0, h1, h2]

/-- Witness for C4: the five cases on concrete raw data, including the
unknown raw value 5. -/
theorem C4_witness :
    AirPurifierMiotStatus.led_brightness
      ⟨⟨true, 0, none, none, none⟩⟩ = none ∧
    AirPurifierMiotStatus.led_brightness
      ⟨⟨true, 0, some 0, none, none⟩⟩ = some LedBrightness.Bright ∧
    AirPurifierMiotStatus.led_brightness
      ⟨⟨true, 0, some 1, none, none⟩⟩ = some LedBrightness.Dim ∧
    AirPurifierMiotStatus.led_brightness
      ⟨⟨true, 0, some 2, none, none⟩⟩ = some LedBrightness.Off ∧
    AirPurifierMiotStatus.led_brightness
      ⟨⟨true, 0, some 5, none, none⟩⟩ = none :=
  ⟨(C4_led_brightness_decode ⟨true, 0, none, none, none⟩).1 rfl,
   (C4_led_brightness_decode ⟨true, 0, some 0, none, none⟩).2.1 rfl,
   (C4_led_brightness_decode ⟨true, 0, some 1, none, none⟩).2.2.1 rfl,
   (C4_led_brightness_decode ⟨true, 0, some 2, none, none⟩).2.2.2.1 rfl,
   (C4_led_brightness_decode ⟨true, 0, some 5, none, none⟩).2.2.2.2 5 rfl
     (by decide) (by decide) (by decide)⟩

/-- C5: `set_fan_level` fails with an invalid-argument error and issues
zero transport set calls for every level outside `[1, 3]`, and for levels
1-3 issues exactly one set call to address `{siid: 2, piid: 4}`;
`set_favorite_level` fails likewise outside `[0, 14]` and for levels 0-14
issues exactly one set call to `{siid: 10, piid: 10}`; validation precedes
any transport call, so a failure issues no call at all. -/
theorem C5_set_level_validation : ∀ level : Int,
    ((level < 1 ∨ level > 3) →
      set_fan_level level =
        ([], some ("Invalid fan level: " ++ toString level))) ∧
    (1 ≤ level → level ≤ 3 →
      set_fan_level level = ([⟨⟨2, 4⟩, level⟩], none)) ∧
    ((level < 0 ∨ level > 14) →
      set_favorite_level level =
        ([], some ("Invalid favorite level: " ++ toString level))) ∧
    (0 ≤ level → level ≤ 14 →
      set_favorite_level level = ([⟨⟨10, 10⟩, level⟩], none)) := by
  intro level
  have hfan : assocGet addressTable "fan_level" = some ⟨2, 4⟩ := by decide
  have hfav : assocGet addressTable "favorite_level" = some ⟨10, 10⟩ := by decide
  refine ⟨?_, ?_, ?_, ?_⟩
  · intro h
    unfold set_fan_level
    rw [if_pos h]
  · intro h1 h2
    unfold set_fan_level set_property
    rw [if_neg (by omega), hfan]
  · intro h
    unfold set_favorite_level
    rw [if_pos h]
  · intro h1 h2
    unfold set_favorite_level set_property
    rw [if_neg (by omega), hfav]

/-- Witness for C5: the boundary levels 0, 4, 1, 2, 3 for the fan and
-1, 15, 0, 14 for the favorite level. -/
theorem C5_witness :
    set_fan_level 0 = ([], some ("Invalid fan level: " ++ toString (0 : Int))) ∧
    set_fan_level 4 = ([], some ("Invalid fan level: " ++ toString (4 : Int))) ∧
    set_fan_level 1 = ([⟨⟨2, 4⟩, 1⟩], none) ∧
    set_fan_level 2 = ([⟨⟨2, 4⟩, 2⟩], none) ∧
    set_fan_level 3 = ([⟨⟨2, 4⟩, 3⟩], none) ∧
    set_favorite_level (-1) =
      ([], some ("Invalid favorite level: " ++ toString (-1 : Int))) ∧
    set_favorite_level 15 =
      ([], some ("Invalid favorite level: " ++ toString (15 : Int))) ∧
    set_favorite_level 0 = ([⟨⟨10, 10⟩, 0⟩], none) ∧
    set_favorite_level 14 = ([⟨⟨10, 10⟩, 14⟩], none) :=
  ⟨(C5_set_level_validation 0).1 (by omega),
   (C5_set_level_validation 4).1 (by omega),
   (C5_set_level_validation 1).2.1 (by omega) (by omega),
   (C5_set_level_validation 2).2.1 (by omega) (by omega),
   (C5_set_level_validation 3).2.1 (by omega) (by omega),
   (C5_set_level_validation (-1)).2.2.1 (by omega),
   (C5_set_level_validation 15).2.2.1 (by omega),
   (C5_set_level_validation 0).2.2.2 (by omega) (by omega),
   (C5_set_level_validation 14).2.2.2 (by omega) (by omega)⟩

/-- C6: the memoizing classifier is idempotent: for any starting cache and
product id, a second call returns the same category, leaves the cache
unchanged, and evaluates zero rule patterns (a cache hit), because the
first call leaves the category stored under the exact product-id string.
The cache is a single class attribute shared by all snapshot instances,
which the explicit threading of one `Cache` value models. -/
theorem C6_classify_memoized : ∀ (c : Cache) (pid : String),
    (getFilterType (getFilterType c pid).2.1 pid).1 = (getFilterType c pid).1 ∧
    (getFilterType (getFilterType c pid).2.1 pid).2.1 =
      (getFilterType c pid).2.1 ∧
    (getFilterType (getFilterType c pid).2.1 pid).2.2 = 0 ∧
    assocGet (getFilterType c pid).2.1 pid = some (getFilterType c pid).1 := by
  intro c pid
  cases h : assocGet c pid with
  | some ft => simp [getFilterType, h]
  | none => simp [getFilterType, h, assocGet]

/-- C7, counterexample: building a snapshot from a raw mapping whose mode
is 4 succeeds (the constructor only stores the data), refuting the claim
that construction itself fails; the decode error exists only at the later
`mode` field access. -/
theorem C7_counterexample :
    mkStatus ⟨true, 4, none, none, none⟩ =
      Except.ok ⟨⟨true, 4, none, none, none⟩⟩ ∧
    ∃ e, AirPurifierMiotStatus.mode ⟨⟨true, 4, none, none, none⟩⟩ =
      Except.error e :=
  ⟨rfl, toString (4 : Int) ++ " is not a valid OperationMode", rfl⟩

/-- C7 (amended): for every raw status mapping, constructing the snapshot
succeeds — even when the mode value lies outside the defined enum
`{0,1,2,3}` — and the decode error is surfaced only when the `mode`
accessor is used on the built snapshot. -/
theorem C7_construction_lazy : ∀ d : RawData,
    mkStatus d = Except.ok ⟨d⟩ ∧
    (d.mode ≠ 0 → d.mode ≠ 1 → d.mode ≠ 2 → d.mode ≠ 3 →
      ∃ e, AirPurifierMiotStatus.mode ⟨d⟩ = Except.error e) := by
  intro d
  refine ⟨rfl, ?_⟩
  intro h0 h1 h2 h3
  simp only [AirPurifierMiotStatus.mode, OperationMode.ofRaw]
  rw [if_neg h0, if_neg h1, if_neg h2, if_neg h3]
  exact ⟨_, rfl⟩

/-- Witness for C7: the amended claim at the concrete out-of-range mode
value 5. -/
theorem C7_witness :
    mkStatus ⟨true, 5, none, none, none⟩ =
      Except.ok ⟨⟨true, 5, none, none, none⟩⟩ ∧
    (∃ e, AirPurifierMiotStatus.mode ⟨⟨true, 5, none, none, none⟩⟩ =
      Except.error e) :=
  ⟨(C7_construction_lazy ⟨true, 5, none, none, none⟩).1,
   (C7_construction_lazy ⟨true, 5, none, none, none⟩).2
     (by decide) (by decide) (by decide) (by decide)⟩

/-- C8: contrary to the claim, the `button_pressed` accessor cannot
return without error on any StatusSnapshot built by `status()` from a
batch read of all registered addresses: `"button_pressed"` is not among
the registered names, so the raw dict never has that key — whatever the
read values and their order — and the subscript raises `KeyError`. -/
theorem C8_button_pressed_keyerror : ∀ {β : Type} (data : List (String × β)),
    List.Perm (data.map Prod.fst) registeredNames →
    button_pressed_access data = Except.error "KeyError: button_pressed" := by
  intro β data h
  have hnot : "button_pressed" ∉ data.map Prod.fst := by
    rw [h.mem_iff]
    decide
  unfold button_pressed_access dictGetItem
  rw [assocGet_eq_none_of_not_mem data _ hnot]
  rfl

/-- Witness for C8: a concrete full batch read (every registered name
bound to a value) on which the accessor raises. -/
theorem C8_witness :
    List.Perm ((registeredNames.map fun n => (n, (0 : Nat))).map Prod.fst)
      registeredNames ∧
    button_pressed_access (registeredNames.map fun n => (n, (0 : Nat))) =
      Except.error "KeyError: button_pressed" :=
  have hperm : List.Perm
      ((registeredNames.map fun n => (n, (0 : Nat))).map Prod.fst)
      registeredNames := by decide
  ⟨hperm, C8_button_pressed_keyerror _ hperm⟩

/-- C9: `is_on` returns the raw power boolean directly, `power` returns
`"on"` when it is true and `"off"` otherwise, and the two accessors agree:
`power` equals `"on"` exactly when `is_on` is true. -/
theorem C9_power_is_on_agree : ∀ d : RawData,
    AirPurifierMiotStatus.is_on ⟨d⟩ = d.power ∧
    AirPurifierMiotStatus.power ⟨d⟩ = (if d.power then "on" else "off") ∧
    (AirPurifierMiotStatus.power ⟨d⟩ = "on" ↔
      AirPurifierMiotStatus.is_on ⟨d⟩ = true) := by
  intro d
  refine ⟨rfl, rfl, ?_⟩
  cases h : d.power <;>
    simp [AirPurifierMiotStatus.power, AirPurifierMiotStatus.is_on, h]

/-- C10: the `filter_type` accessor (the only accessor that touches
mutable state beyond reading `data`) leaves the snapshot's raw data
unchanged, and its only effect on the process-wide cache is at most one
new entry: every key either keeps its previous binding, or was unbound and
is now bound to the first-matching rule's category for that key. -/
theorem C10_filter_type_frame : ∀ st : ProcState,
    (filterTypeProc st).2.snap = st.snap ∧
    ∀ k : String,
      assocGet (filterTypeProc st).2.cache k = assocGet st.cache k ∨
      (assocGet st.cache k = none ∧
        assocGet (filterTypeProc st).2.cache k = some (classifyByRules k)) := by
  intro st
  refine ⟨rfl, ?_⟩
  intro k
  unfold filterTypeProc AirPurifierMiotStatus.filter_type
  cases htag : st.snap.filter_rfid_tag with
  | none => left; rfl
  | some tag =>
    by_cases hz : tag = "0:0:0:0:0:0:0"
    · simp [hz]
    · cases hpid : st.snap.filter_rfid_product_id with
      | none => simp [hz, hpid]
      | some pid =>
        simp only [hz, hpid, if_neg hz]
        unfold getFilterType
        cases hc : assocGet st.cache pid with
        | some ft => simp
        | none =>
          by_cases hk : k = pid
          · subst hk
            right
            refine ⟨hc, ?_⟩
            simp [assocGet, classifyByRules]
          · left
            simp [assocGet, hk]
